import Mathlib

/-
Verification of the vehicle-routing request handler in src/main.py.

The program is a Flask endpoint `optimize` that builds an OR-Tools routing
model from the request payload (jobs, drivers, time_matrix), registers a
time dimension (slack 30*60, horizon 24*3600), pickup time windows of
±15 minutes, pickup/delivery pairing with same-vehicle and time-precedence
side constraints, a capacity dimension fed by `demand_callback`, per-driver
shift bounds pinned at the start and bounded at the end, runs the external
solver with a 30 second limit, and extracts per-vehicle routes, dropping
routes of length 2 and tagging the rest with the driver's id/name/phone.

The external solver (OR-Tools) is not part of the repository; it is
embedded as an abstract function argument, and the constraints the code
registers on the model (src/main.py lines 46-100) are embedded as the
decidable predicate `accepted` over an explicit solution: the solver's
contract is that any solution it returns satisfies every registered
constraint.  The mandatory-visit semantics of the routing model (every
node of the matrix is visited; spec section 4.2, coupling constraint 3)
is embedded as the predicate `complete`.
-/

namespace Vrp

/-- A job from the request payload: fields pickup_node, dropoff_node,
passengers, pickup_time as read by src/main.py. -/
structure Job where
  pickup_node : Nat
  dropoff_node : Nat
  passengers : Int
  pickup_time : Int
deriving DecidableEq

/-- A driver from the request payload: fields id, name, phone, start_idx,
end_idx, capacity, shift_start, shift_end as read by src/main.py. -/
structure Driver where
  id : Nat
  name : String
  phone : String
  start_idx : Nat
  end_idx : Nat
  capacity : Int
  shift_start : Int
  shift_end : Int
deriving DecidableEq

/-- The request body of the optimize endpoint: jobs, drivers, time_matrix
(src/main.py lines 19-21). -/
structure Request where
  jobs : List Job
  drivers : List Driver
  time_matrix : List (List Int)
deriving DecidableEq

/-- One vehicle's part of a solver assignment: the node path from the
vehicle's start index to its end index, and the value of the cumulative
time dimension at each visited index. -/
structure RouteAssign where
  path : List Nat
  times : List Int
deriving DecidableEq

/-- A solver assignment: one route per vehicle, in vehicle order. -/
abbrev Solution := List RouteAssign

/-- One output stop: node and arrival_time (src/main.py lines 124-127). -/
structure Stop where
  node : Nat
  arrival_time : Int
deriving DecidableEq

/-- One output route, tagged with the serving driver's id, name and phone
(src/main.py lines 139-144). -/
structure RouteOut where
  driver_id : Nat
  driver_name : String
  driver_phone : String
  route : List Stop
deriving DecidableEq

/-- The three response shapes the handler can produce: HTTP 200 success
with routes (line 147), HTTP 400 infeasibility rejection (line 113), and
the blanket except-handler's HTTP 500 error (line 151). -/
inductive Resp where
  | success (routes : List RouteOut)
  | badRequest (error : String)
  | serverError (error : String)
deriving DecidableEq

/-- HTTP status code of each response shape (src/main.py lines 113, 147, 151). -/
def statusCode : Resp → Nat
  | .success _ => 200
  | .badRequest _ => 400
  | .serverError _ => 500

/-- The routing search parameters built at src/main.py lines 103-106:
first-solution strategy, metaheuristic, and time limit are assigned the
fixed values PATH_CHEAPEST_ARC, GUIDED_LOCAL_SEARCH and 30 seconds. -/
structure SearchParams where
  first_solution_strategy : String
  local_search_metaheuristic : String
  time_limit_seconds : Nat
deriving DecidableEq

/-- The parameters the handler passes to the solver; all three fields are
literals in the source (lines 104-106), so this is a closed constant that
depends on nothing. -/
def buildSearchParams : SearchParams :=
  { first_solution_strategy := "PATH_CHEAPEST_ARC"
    local_search_metaheuristic := "GUIDED_LOCAL_SEARCH"
    time_limit_seconds := 30 }

/-- The pickup time window of src/main.py lines 61-62:
[pickup_time - 15*60, pickup_time + 15*60]. -/
def pickupWindow (t : Int) : Int × Int := (t - 15 * 60, t + 15 * 60)

/-- The transit callback of src/main.py lines 37-40: the matrix entry for
the (from, to) node pair.  Out-of-range lookups default to 0 here; inside
an accepted, complete solution every node is a valid matrix index. -/
def time_callback (m : List (List Int)) (i j : Nat) : Int :=
  (m.getD i []).getD j 0

/-- The demand callback of src/main.py lines 77-84: scan the jobs in list
order and return +passengers at the first job whose pickup_node matches,
-passengers at the first job whose dropoff_node matches, else 0. -/
def demand_callback (jobs : List Job) (node : Nat) : Int :=
  match jobs with
  | [] => 0
  | job :: rest =>
    if node = job.pickup_node then job.passengers
    else if node = job.dropoff_node then -job.passengers
    else demand_callback rest node

/-- Value of the capacity dimension at position p of a path: the running
sum of `demand_callback` over the first p nodes, starting from 0 (the
dimension is registered with zero slack and start cumul fixed to zero,
src/main.py lines 86-93). -/
def loadAt (jobs : List Job) (path : List Nat) (p : Nat) : Int :=
  ((path.take p).map (demand_callback jobs)).sum

/-- Position of the first occurrence of a node in a path. -/
def posOf (path : List Nat) (node : Nat) : Option Nat :=
  match path with
  | [] => none
  | a :: rest => if a = node then some 0 else (posOf rest node).map (· + 1)

/-- The route of vehicle v in a solution (empty route when out of range). -/
def routeD (sol : Solution) (v : Nat) : RouteAssign :=
  sol.getD v ⟨[], []⟩

/-- The driver at position v of the driver list (dummy when out of range). -/
def driverD (ds : List Driver) (v : Nat) : Driver :=
  ds.getD v ⟨0, "", "", 0, 0, 0, 0, 0⟩

/-- Total number of visits of a node across all routes of a solution. -/
def countNode : Solution → Nat → Nat
  | [], _ => 0
  | r :: rs, node => r.path.count node + countNode rs node

/-- Bound on the time value at a route's last index: the end cumul of the
time dimension is constrained to [0, shift_end] (src/main.py line 100). -/
def endTimeOK (d : Driver) (r : RouteAssign) : Bool :=
  match r.times.getLast? with
  | some t => decide (0 ≤ t) && decide (t ≤ d.shift_end)
  | none => false

/-- The time-dimension constraints on one vehicle's route, as registered
in src/main.py: the route runs from the driver's start index to its end
index (RoutingIndexManager, lines 27-32, a route always has at least the
two endpoint indices); the start cumul is pinned to shift_start
(SetRange(shift_start, shift_start), line 99); the end cumul lies in
[0, shift_end] (line 100); consecutive cumuls differ by the matrix transit
plus a slack of at most 30*60 (AddDimension slack argument, line 48); and
every cumul lies in [0, 24*3600] (AddDimension capacity argument, line 49). -/
def timeCheck (m : List (List Int)) (d : Driver) (r : RouteAssign) : Bool :=
  decide (r.times.length = r.path.length) &&
  decide (2 ≤ r.path.length) &&
  decide (r.path.head? = some d.start_idx) &&
  decide (r.path.getLast? = some d.end_idx) &&
  decide (r.times.head? = some d.shift_start) &&
  endTimeOK d r &&
  (List.range (r.path.length - 1)).all (fun k =>
    decide (r.times.getD k 0 + time_callback m (r.path.getD k 0) (r.path.getD (k + 1) 0)
              ≤ r.times.getD (k + 1) 0) &&
    decide (r.times.getD (k + 1) 0
              ≤ r.times.getD k 0 + time_callback m (r.path.getD k 0) (r.path.getD (k + 1) 0)
                  + 30 * 60)) &&
  r.times.all (fun t => decide (0 ≤ t) && decide (t ≤ 24 * 3600))

/-- The capacity-dimension constraint on one vehicle's route: at every
index of the route the cumulative load lies in [0, capacity of the serving
driver] (AddDimensionWithVehicleCapacity with zero slack and per-vehicle
capacities, src/main.py lines 86-93). -/
def capacityCheck (jobs : List Job) (d : Driver) (r : RouteAssign) : Bool :=
  (List.range r.path.length).all (fun p =>
    decide (0 ≤ loadAt jobs r.path p) && decide (loadAt jobs r.path p ≤ d.capacity))

/-- The per-job constraints of src/main.py lines 56-74, evaluated on a
solution: some route carries both the job's pickup node and its dropoff
node, the pickup before the dropoff (AddPickupAndDelivery, line 68), the
time value at the pickup inside `pickupWindow` (lines 61-64), the time
value at the dropoff inside [0, 24*3600] (line 65), and the pickup's time
value at most the dropoff's (lines 72-74). -/
def jobServed (sol : Solution) (job : Job) : Bool :=
  sol.any (fun r =>
    match posOf r.path job.pickup_node, posOf r.path job.dropoff_node with
    | some p, some q =>
      decide (p < q) &&
      decide ((pickupWindow job.pickup_time).1 ≤ r.times.getD p 0) &&
      decide (r.times.getD p 0 ≤ (pickupWindow job.pickup_time).2) &&
      decide (0 ≤ r.times.getD q 0) &&
      decide (r.times.getD q 0 ≤ 24 * 3600) &&
      decide (r.times.getD p 0 ≤ r.times.getD q 0)
    | _, _ => false)

/-- All constraints the code attaches to one job: its two nodes are each
visited exactly once in the whole solution (every node of a routing model
is mandatory and owned by a single index), and `jobServed` holds. -/
def jobCheck (sol : Solution) (job : Job) : Bool :=
  decide (countNode sol job.pickup_node = 1) &&
  decide (countNode sol job.dropoff_node = 1) &&
  jobServed sol job

/-- A solution satisfies every constraint registered on the routing model
by src/main.py lines 27-100: one route per driver, each route passing its
driver's time and capacity checks, and each job's constraints satisfied.
The external solver only ever returns such solutions. -/
def accepted (req : Request) (sol : Solution) : Bool :=
  decide (sol.length = req.drivers.length) &&
  (List.range req.drivers.length).all (fun v =>
    timeCheck req.time_matrix (driverD req.drivers v) (routeD sol v) &&
    capacityCheck req.jobs (driverD req.drivers v) (routeD sol v)) &&
  req.jobs.all (jobCheck sol)

/-- Concatenation of all node paths of a solution. -/
def allVisits (sol : Solution) : List Nat :=
  sol.foldr (fun r acc => r.path ++ acc) []

/-- Every node of the matrix is visited exactly once across the solution:
the multiset of all visits equals the node set 0..n-1.  This is the
mandatory-visit semantics of the routing model (spec section 4.2, coupling
constraint 3: no job left unvisited, all nodes owned by exactly one
route position). -/
def complete (req : Request) (sol : Solution) : Bool :=
  decide (List.insertionSort (· ≤ ·) (allVisits sol) = List.range req.time_matrix.length)

/-- Modelled from the spec: the lower bound of a node's time window.  A
job's pickup node is bounded below by pickup_time - 900 (spec section 4.2);
every other node only by the dimension's lower bound 0. -/
def windowLo (jobs : List Job) (node : Nat) : Int :=
  match jobs.find? (fun j => j.pickup_node == node) with
  | some j => j.pickup_time - 15 * 60
  | none => 0

/-- Modelled from the spec: forward propagation of the accumulated time
values along a path after the first node (spec sections 3 and 4.4: the
extractor reads the accumulated time-dimension value at each index; the
accumulated value is the previous value plus the edge transit, lifted to
the node's window lower bound when the vehicle must wait). -/
def accFrom (m : List (List Int)) (jobs : List Job) (t : Int) (prev : Nat) :
    List Nat → List Int
  | [] => []
  | b :: rest =>
    let tb := max (t + time_callback m prev b) (windowLo jobs b)
    tb :: accFrom m jobs tb b rest

/-- Modelled from the spec: the accumulated time values of a whole path,
starting from the pinned start time. -/
def accTimes (m : List (List Int)) (jobs : List Job) (start : Int) :
    List Nat → List Int
  | [] => []
  | a :: rest => start :: accFrom m jobs start a rest

/-- Modelled from the spec: a solution whose recorded time values are the
accumulated (earliest feasible) values along each route, as the extractor
reads them (spec section 4.4). -/
def accumulatedSol (req : Request) (sol : Solution) : Bool :=
  decide (sol.length = req.drivers.length) &&
  (List.range req.drivers.length).all (fun v =>
    decide ((routeD sol v).times =
      accTimes req.time_matrix req.jobs (driverD req.drivers v).shift_start
        (routeD sol v).path))

/-- True when the request would make model construction fail: a zero
vehicle count or matrix size, or a driver or job node outside the matrix
index range. -/
def invalidInput (req : Request) : Bool :=
  decide (req.drivers.length = 0) ||
  decide (req.time_matrix.length = 0) ||
  req.drivers.any (fun d =>
    decide (req.time_matrix.length ≤ d.start_idx) ||
    decide (req.time_matrix.length ≤ d.end_idx)) ||
  req.jobs.any (fun j =>
    decide (req.time_matrix.length ≤ j.pickup_node) ||
    decide (req.time_matrix.length ≤ j.dropoff_node))

/-- The error text of the exception surfaced on invalid construction
input, as rendered by the blanket handler at src/main.py line 151. -/
def buildErrorMsg : String := "invalid node index or empty routing model"

/-- Modelled from the spec: src/main.py performs no validation of its own
(there is no validation code between reading the payload at lines 19-21
and building the model at lines 27-32), so an out-of-range node index or a
zero vehicle/location count makes the routing library's index-manager and
model construction raise, and the exception propagates to the blanket
except-handler of lines 149-151.  Construction of the model is embedded
as this check; its error branch is the raised exception. -/
def buildModelCheck (req : Request) : Except String Unit :=
  if invalidInput req then .error buildErrorMsg else .ok ()

/-- The infeasibility message of src/main.py line 113 (Turkish: "No
feasible route found.  Increase the number of drivers or loosen the time
window settings."). -/
def infeasibleMsg : String :=
  "Uygun rota bulunamadı.  Sürücü sayısını artırın veya time window ayarlarını gevşetin. "

/-- The per-vehicle output record of src/main.py lines 118-136: each
visited index paired with its time value, tagged with the driver fields. -/
def stops (r : RouteAssign) : List Stop :=
  (r.path.zip r.times).map (fun nt => ⟨nt.1, nt.2⟩)

/-- The output record the extraction loop builds for vehicle v
(src/main.py lines 139-144). -/
def mkRouteOut (drivers : List Driver) (sol : Solution) (v : Nat) : RouteOut :=
  { driver_id := (driverD drivers v).id
    driver_name := (driverD drivers v).name
    driver_phone := (driverD drivers v).phone
    route := stops (routeD sol v) }

/-- The solution-parsing loop of src/main.py lines 116-144: walk every
vehicle's route, and keep the record only when the route has more than two
entries (line 138). -/
def extractRoutes (drivers : List Driver) (sol : Solution) : List RouteOut :=
  (List.range drivers.length).filterMap (fun v =>
    if 2 < (stops (routeD sol v)).length then some (mkRouteOut drivers sol v) else none)

/-- The optimize handler of src/main.py lines 13-151, with the external
solver passed in as a function of the search parameters and the request:
model construction failure is caught by the blanket handler (HTTP 500,
lines 149-151); a solver returning no solution yields the HTTP 400
infeasibility rejection (lines 111-113); otherwise the parsed routes are
returned with status success (lines 116-147). -/
def optimize (solve : SearchParams → Request → Option Solution) (req : Request) : Resp :=
  match buildModelCheck req with
  | .error e => .serverError e
  | .ok _ =>
    match solve buildSearchParams req with
    | none => .badRequest infeasibleMsg
    | some sol => .success (extractRoutes req.drivers sol)

/-- The handler seen from the whole process: the process environment is
consulted only at src/main.py lines 153-156 to choose the listening PORT;
the optimize handler itself closes over no configuration, so the response
is `optimize` applied to the request, whatever the environment holds. -/
def appOptimize (_env : List (String × String))
    (solve : SearchParams → Request → Option Solution) (req : Request) : Resp :=
  optimize solve req

/-- Scenario A job: pickup 1 passenger at node 1, dropoff at node 2,
target time 1000 (spec section 8, Scenario A). -/
def jobA : Job := ⟨1, 2, 1, 1000⟩

/-- Scenario A driver: capacity 4, shift [0, 36000], start node 0, end
node 3. -/
def driverA : Driver := ⟨1, "Ayse", "5551112233", 0, 3, 4, 0, 36000⟩

/-- Scenario A travel matrix over nodes 0 = start, 1 = A, 2 = B, 3 = end:
travel(start, A) = 0, travel(A, B) = 500, travel(B, end) = 0, diagonal 0,
remaining entries arbitrary non-negative values. -/
def matrixA : List (List Int) :=
  [[0, 0, 500, 0], [0, 0, 500, 0], [500, 500, 0, 0], [0, 0, 0, 0]]

/-- The Scenario A request. -/
def scenarioA : Request := ⟨[jobA], [driverA], matrixA⟩

/-- The unique accepted, complete, accumulated solution of Scenario A:
path start, A, B, end with accumulated times 0, 100, 600, 600. -/
def solA : Solution := [⟨[0, 1, 2, 3], [0, 100, 600, 600]⟩]

/-- A request whose only job names node 5, which is not an index of the
1x1 travel matrix. -/
def badReq : Request :=
  ⟨[⟨5, 6, 1, 1000⟩], [⟨3, "Can", "5553334455", 0, 0, 4, 0, 36000⟩], [[0]]⟩

/-- Scenario B request: the job's pickup target 50000 lies outside the
only driver's shift [0, 3600]; well-formed node indices. -/
def scenarioB : Request :=
  ⟨[⟨1, 2, 1, 50000⟩], [⟨2, "Veli", "5550001122", 0, 3, 4, 0, 3600⟩], matrixA⟩

/-- Two jobs sharing node 5 as their pickup node. -/
def jobW1 : Job := ⟨5, 6, 2, 100⟩

/-- Second job at shared node 5; its demand 3 is ignored there. -/
def jobW2 : Job := ⟨5, 9, 3, 200⟩

/-- Splitting an accepted solution into its three constraint groups. -/
theorem accepted_parts (req : Request) (sol : Solution) (h : accepted req sol = true) :
    sol.length = req.drivers.length ∧
    (∀ v < req.drivers.length,
      timeCheck req.time_matrix (driverD req.drivers v) (routeD sol v) = true ∧
      capacityCheck req.jobs (driverD req.drivers v) (routeD sol v) = true) ∧
    (∀ job ∈ req.jobs, jobCheck sol job = true) := by
  simp only [accepted, Bool.and_eq_true, decide_eq_true_eq, List.all_eq_true,
    List.mem_range] at h
  exact ⟨h.1.1, h.1.2, h.2⟩

/-- Splitting a job's constraint group. -/
theorem jobCheck_parts (sol : Solution) (job : Job) (h : jobCheck sol job = true) :
    countNode sol job.pickup_node = 1 ∧ countNode sol job.dropoff_node = 1 ∧
    jobServed sol job = true := by
  simp only [jobCheck, Bool.and_eq_true, decide_eq_true_eq] at h
  exact ⟨h.1.1, h.1.2, h.2⟩

/-- Unfolding the served-job predicate into the constraints of
src/main.py lines 56-74. -/
theorem jobServed_parts (sol : Solution) (job : Job) (h : jobServed sol job = true) :
    ∃ r ∈ sol, ∃ p q,
      posOf r.path job.pickup_node = some p ∧
      posOf r.path job.dropoff_node = some q ∧
      p < q ∧
      job.pickup_time - 900 ≤ r.times.getD p 0 ∧
      r.times.getD p 0 ≤ job.pickup_time + 900 ∧
      0 ≤ r.times.getD q 0 ∧ r.times.getD q 0 ≤ 86400 ∧
      r.times.getD p 0 ≤ r.times.getD q 0 := by
  simp only [jobServed, List.any_eq_true] at h
  obtain ⟨r, hr, hinner⟩ := h
  refine ⟨r, hr, ?_⟩
  cases hp : posOf r.path job.pickup_node with
  | none => rw [hp] at hinner; cases hq : posOf r.path job.dropoff_node <;>
      rw [hq] at hinner <;> simp at hinner
  | some p =>
    cases hq : posOf r.path job.dropoff_node with
    | none => rw [hp, hq] at hinner; simp at hinner
    | some q =>
      rw [hp, hq] at hinner
      simp only [pickupWindow, Bool.and_eq_true, decide_eq_true_eq] at hinner
      refine ⟨p, q, rfl, rfl, ?_⟩
      norm_num at hinner ⊢
      tauto

/-- A position found by `posOf` is an occurrence of the node. -/
theorem posOf_mem (path : List Nat) (node p : Nat) (h : posOf path node = some p) :
    node ∈ path := by
  induction path generalizing p with
  | nil => simp [posOf] at h
  | cons a rest ih =>
    by_cases ha : a = node
    · exact ha ▸ List.mem_cons_self a rest
    · simp only [posOf, if_neg ha, Option.map_eq_some'] at h
      obtain ⟨p', hp', _⟩ := h
      exact List.mem_cons_of_mem a (ih p' hp')

/-- Membership in a solution, through the vehicle-indexed view. -/
theorem mem_iff_routeD (sol : Solution) (r : RouteAssign) :
    r ∈ sol ↔ ∃ v, v < sol.length ∧ routeD sol v = r := by
  induction sol with
  | nil => simp
  | cons s rest ih =>
    constructor
    · intro h
      rcases List.mem_cons.mp h with rfl | h
      · exact ⟨0, by simp, rfl⟩
      · obtain ⟨v, hv, hr⟩ := ih.mp h
        exact ⟨v + 1, by simpa using Nat.succ_lt_succ hv, by simpa [routeD] using hr⟩
    · rintro ⟨v, hv, rfl⟩
      cases v with
      | zero => simp [routeD]
      | succ v =>
        exact List.mem_cons_of_mem s (ih.mpr ⟨v, by simpa using Nat.lt_of_succ_lt_succ hv,
          by simp [routeD]⟩)

/-- A node occurring on some route is counted at least once. -/
theorem countNode_pos (sol : Solution) (v node : Nat) (hv : v < sol.length)
    (hmem : node ∈ (routeD sol v).path) : 1 ≤ countNode sol node := by
  induction sol generalizing v with
  | nil => simp at hv
  | cons r rs ih =>
    cases v with
    | zero =>
      have hc : 0 < r.path.count node := by
        rw [List.count_pos_iff]
        simpa [routeD] using hmem
      simp only [countNode]
      omega
    | succ v =>
      have := ih v (by simpa using Nat.lt_of_succ_lt_succ hv) (by simpa [routeD] using hmem)
      simp only [countNode]
      omega

/-- A node occurring on two distinct routes is counted at least twice. -/
theorem countNode_two (sol : Solution) (v w node : Nat) (hv : v < sol.length)
    (hw : w < sol.length) (hvw : v ≠ w)
    (h1 : node ∈ (routeD sol v).path) (h2 : node ∈ (routeD sol w).path) :
    2 ≤ countNode sol node := by
  induction sol generalizing v w with
  | nil => simp at hv
  | cons r rs ih =>
    cases v with
    | zero =>
      cases w with
      | zero => exact absurd rfl hvw
      | succ w =>
        have hc : 0 < r.path.count node := by
          rw [List.count_pos_iff]
          simpa [routeD] using h1
        have hr : 1 ≤ countNode rs node :=
          countNode_pos rs w node (by simpa using Nat.lt_of_succ_lt_succ hw)
            (by simpa [routeD] using h2)
        simp only [countNode]
        omega
    | succ v =>
      cases w with
      | zero =>
        have hc : 0 < r.path.count node := by
          rw [List.count_pos_iff]
          simpa [routeD] using h2
        have hr : 1 ≤ countNode rs node :=
          countNode_pos rs v node (by simpa using Nat.lt_of_succ_lt_succ hv)
            (by simpa [routeD] using h1)
        simp only [countNode]
        omega
      | succ w =>
        have := ih v w (by simpa using Nat.lt_of_succ_lt_succ hv)
          (by simpa using Nat.lt_of_succ_lt_succ hw) (by omega)
          (by simpa [routeD] using h1) (by simpa [routeD] using h2)
        simp only [countNode]
        omega

/-- Splitting a route's time-dimension constraint group. -/
theorem timeCheck_parts (m : List (List Int)) (d : Driver) (r : RouteAssign)
    (h : timeCheck m d r = true) :
    r.times.length = r.path.length ∧ 2 ≤ r.path.length ∧
    r.path.head? = some d.start_idx ∧ r.path.getLast? = some d.end_idx ∧
    r.times.head? = some d.shift_start ∧
    (∃ t, r.times.getLast? = some t ∧ 0 ≤ t ∧ t ≤ d.shift_end) ∧
    (∀ k < r.path.length - 1,
      r.times.getD k 0 + time_callback m (r.path.getD k 0) (r.path.getD (k + 1) 0)
          ≤ r.times.getD (k + 1) 0 ∧
      r.times.getD (k + 1) 0
          ≤ r.times.getD k 0 + time_callback m (r.path.getD k 0) (r.path.getD (k + 1) 0)
              + 1800) ∧
    (∀ t ∈ r.times, 0 ≤ t ∧ t ≤ 86400) := by
  simp only [timeCheck, Bool.and_eq_true, decide_eq_true_eq, List.all_eq_true,
    List.mem_range] at h
  obtain ⟨⟨⟨⟨⟨⟨⟨h1, h2⟩, h3⟩, h4⟩, h5⟩, hend⟩, htrans⟩, hbound⟩ := h
  refine ⟨h1, h2, h3, h4, h5, ?_, ?_, ?_⟩
  · unfold endTimeOK at hend
    cases hl : r.times.getLast? with
    | none => rw [hl] at hend; simp at hend
    | some t =>
      rw [hl] at hend
      simp only [Bool.and_eq_true, decide_eq_true_eq] at hend
      exact ⟨t, rfl, hend.1, hend.2⟩
  · intro k hk
    have := htrans k hk
    norm_num at this ⊢
    tauto
  · intro t ht
    have := hbound t ht
    norm_num at this ⊢
    tauto

/-- Splitting a route's capacity-dimension constraint group. -/
theorem capacityCheck_parts (jobs : List Job) (d : Driver) (r : RouteAssign)
    (h : capacityCheck jobs d r = true) :
    ∀ p < r.path.length, 0 ≤ loadAt jobs r.path p ∧ loadAt jobs r.path p ≤ d.capacity := by
  simp only [capacityCheck, Bool.and_eq_true, decide_eq_true_eq, List.all_eq_true,
    List.mem_range] at h
  intro p hp
  exact h p hp

/-- C1: for every accepted assignment and every job of the request, some
vehicle's route carries both the job's pickup node and its dropoff node,
every vehicle whose route visits either of the two nodes is that same
vehicle, and the time-dimension value at the dropoff position is at least
the value at the pickup position (src/main.py lines 68-74). -/
theorem C1_same_vehicle_precedence (req : Request) (sol : Solution)
    (hacc : accepted req sol = true) :
    ∀ job ∈ req.jobs, ∃ v, v < sol.length ∧
      job.pickup_node ∈ (routeD sol v).path ∧
      job.dropoff_node ∈ (routeD sol v).path ∧
      (∀ w, w < sol.length →
        (job.pickup_node ∈ (routeD sol w).path ∨ job.dropoff_node ∈ (routeD sol w).path) →
        w = v) ∧
      (∃ p q, posOf (routeD sol v).path job.pickup_node = some p ∧
        posOf (routeD sol v).path job.dropoff_node = some q ∧
        (routeD sol v).times.getD p 0 ≤ (routeD sol v).times.getD q 0) := by
  intro job hjob
  obtain ⟨-, -, hjobs⟩ := accepted_parts req sol hacc
  obtain ⟨hc1, hc2, hserved⟩ := jobCheck_parts sol job (hjobs job hjob)
  obtain ⟨r, hr, p, q, hp, hq, hpq, -, -, -, -, hle⟩ := jobServed_parts sol job hserved
  obtain ⟨v, hv, rfl⟩ := (mem_iff_routeD sol r).mp hr
  refine ⟨v, hv, posOf_mem _ _ _ hp, posOf_mem _ _ _ hq, ?_, p, q, hp, hq, hle⟩
  intro w hw hmem
  by_contra hne
  rcases hmem with hm | hm
  · have h2 := countNode_two sol v w job.pickup_node hv hw
      (fun h => hne h.symm) (posOf_mem _ _ _ hp) hm
    omega
  · have h2 := countNode_two sol v w job.dropoff_node hv hw
      (fun h => hne h.symm) (posOf_mem _ _ _ hq) hm
    omega

/-- Witness for C1 at the Scenario A instance. -/
theorem C1_same_vehicle_precedence_witness :
    accepted scenarioA solA = true ∧
    (∀ job ∈ scenarioA.jobs, ∃ v, v < solA.length ∧
      job.pickup_node ∈ (routeD solA v).path ∧
      job.dropoff_node ∈ (routeD solA v).path ∧
      (∀ w, w < solA.length →
        (job.pickup_node ∈ (routeD solA w).path ∨ job.dropoff_node ∈ (routeD solA w).path) →
        w = v) ∧
      (∃ p q, posOf (routeD solA v).path job.pickup_node = some p ∧
        posOf (routeD solA v).path job.dropoff_node = some q ∧
        (routeD solA v).times.getD p 0 ≤ (routeD solA v).times.getD q 0)) :=
  ⟨by decide, C1_same_vehicle_precedence scenarioA solA (by decide)⟩

/-- C2: in every accepted assignment, the cumulative load at every
position of every vehicle's route stays within [0, capacity of the serving
driver] (src/main.py lines 86-93). -/
theorem C2_capacity_bounds (req : Request) (sol : Solution)
    (hacc : accepted req sol = true) :
    ∀ v, v < sol.length → ∀ p, p < (routeD sol v).path.length →
      0 ≤ loadAt req.jobs (routeD sol v).path p ∧
      loadAt req.jobs (routeD sol v).path p ≤ (driverD req.drivers v).capacity := by
  intro v hv p hp
  obtain ⟨hlen, hchecks, -⟩ := accepted_parts req sol hacc
  exact capacityCheck_parts _ _ _ (hchecks v (by omega)).2 p hp

/-- Witness for C2 at the Scenario A instance. -/
theorem C2_capacity_bounds_witness :
    accepted scenarioA solA = true ∧
    (∀ v, v < solA.length → ∀ p, p < (routeD solA v).path.length →
      0 ≤ loadAt scenarioA.jobs (routeD solA v).path p ∧
      loadAt scenarioA.jobs (routeD solA v).path p ≤ (driverD scenarioA.drivers v).capacity) :=
  ⟨by decide, C2_capacity_bounds scenarioA solA (by decide)⟩

/-- C3: in every accepted assignment, every job's pickup position carries
a time value inside [pickup_time - 900, pickup_time + 900] (src/main.py
lines 61-64), every route's first time value equals its driver's
shift_start (line 99), and every route's last time value is at most its
driver's shift_end (line 100). -/
theorem C3_time_windows (req : Request) (sol : Solution)
    (hacc : accepted req sol = true) :
    (∀ job ∈ req.jobs, ∃ v p, v < sol.length ∧
        posOf (routeD sol v).path job.pickup_node = some p ∧
        job.pickup_time - 900 ≤ (routeD sol v).times.getD p 0 ∧
        (routeD sol v).times.getD p 0 ≤ job.pickup_time + 900) ∧
    (∀ v, v < sol.length →
        (routeD sol v).times.head? = some (driverD req.drivers v).shift_start ∧
        ∃ t, (routeD sol v).times.getLast? = some t ∧
          t ≤ (driverD req.drivers v).shift_end) := by
  obtain ⟨hlen, hchecks, hjobs⟩ := accepted_parts req sol hacc
  constructor
  · intro job hjob
    obtain ⟨-, -, hserved⟩ := jobCheck_parts sol job (hjobs job hjob)
    obtain ⟨r, hr, p, q, hp, hq, -, hlo, hhi, -⟩ := jobServed_parts sol job hserved
    obtain ⟨v, hv, rfl⟩ := (mem_iff_routeD sol r).mp hr
    exact ⟨v, p, hv, hp, hlo, hhi⟩
  · intro v hv
    obtain ⟨-, -, -, -, h5, ⟨t, hl, -, hts⟩, -, -⟩ :=
      timeCheck_parts _ _ _ (hchecks v (by omega)).1
    exact ⟨h5, t, hl, hts⟩

/-- Unfolding the handler on a request that fails model construction. -/
theorem optimize_invalid (solve : SearchParams → Request → Option Solution)
    (req : Request) (h : invalidInput req = true) :
    optimize solve req = .serverError buildErrorMsg := by
  unfold optimize buildModelCheck
  simp [h]

/-- Unfolding the handler on a buildable request the solver finds
infeasible. -/
theorem optimize_none (solve : SearchParams → Request → Option Solution)
    (req : Request) (hvalid : invalidInput req = false)
    (hnone : solve buildSearchParams req = none) :
    optimize solve req = .badRequest infeasibleMsg := by
  unfold optimize buildModelCheck
  simp [hvalid, hnone]

/-- Unfolding the handler on a buildable request the solver solves. -/
theorem optimize_some (solve : SearchParams → Request → Option Solution)
    (req : Request) (sol : Solution) (hvalid : invalidInput req = false)
    (hs : solve buildSearchParams req = some sol) :
    optimize solve req = .success (extractRoutes req.drivers sol) := by
  unfold optimize buildModelCheck
  simp [hvalid, hs]

/-- Witness for C3 at the Scenario A instance. -/
theorem C3_time_windows_witness :
    accepted scenarioA solA = true ∧
    ((∀ job ∈ scenarioA.jobs, ∃ v p, v < solA.length ∧
        posOf (routeD solA v).path job.pickup_node = some p ∧
        job.pickup_time - 900 ≤ (routeD solA v).times.getD p 0 ∧
        (routeD solA v).times.getD p 0 ≤ job.pickup_time + 900) ∧
    (∀ v, v < solA.length →
        (routeD solA v).times.head? = some (driverD scenarioA.drivers v).shift_start ∧
        ∃ t, (routeD solA v).times.getLast? = some t ∧
          t ≤ (driverD scenarioA.drivers v).shift_end)) :=
  ⟨by decide, C3_time_windows scenarioA solA (by decide)⟩

/-- C4 counterexample: on a request with an out-of-range job node the
handler answers with the blanket except-handler's generic HTTP 500 error
(src/main.py lines 149-151), not with a client-side validation rejection
(HTTP 400-class): src/main.py contains no validation step and no
InvalidInputError, so the claimed InvalidInputError-style rejection never
happens. -/
theorem C4_counterexample :
    invalidInput badReq = true ∧
    optimize (fun _ _ => none) badReq = .serverError buildErrorMsg ∧
    statusCode (optimize (fun _ _ => none) badReq) = 500 ∧
    statusCode (optimize (fun _ _ => none) badReq) ≠ 400 := by decide

/-- C4 amended: for every request with an out-of-range job or driver node
index, or a zero vehicle count or matrix size, model construction fails
before any search: the handler returns the generic HTTP 500 rejection
carrying the error text, and the response is independent of the solver,
which is never consulted. -/
theorem C4_invalid_input_behaviour
    (solve solve2 : SearchParams → Request → Option Solution)
    (req : Request) (h : invalidInput req = true) :
    optimize solve req = .serverError buildErrorMsg ∧
    optimize solve req = optimize solve2 req ∧
    statusCode (optimize solve req) = 500 := by
  have h1 := optimize_invalid solve req h
  have h2 := optimize_invalid solve2 req h
  exact ⟨h1, h1.trans h2.symm, by rw [h1]; rfl⟩

/-- Witness for the amended C4 at the concrete bad request, with two
solvers that disagree everywhere. -/
theorem C4_invalid_input_behaviour_witness :
    invalidInput badReq = true ∧
    (optimize (fun _ _ => none) badReq = .serverError buildErrorMsg ∧
     optimize (fun _ _ => none) badReq = optimize (fun _ _ => some solA) badReq ∧
     statusCode (optimize (fun _ _ => none) badReq) = 500) :=
  ⟨by decide, C4_invalid_input_behaviour (fun _ _ => none) (fun _ _ => some solA)
    badReq (by decide)⟩

/-- C5: on a buildable request for which the search yields no solution,
the handler answers the HTTP 400 rejection carrying the (Turkish) message
that advises increasing the driver count and loosening the time windows
(src/main.py lines 111-113), and no success payload, hence no partial
route, is returned. -/
theorem C5_infeasible_rejection (solve : SearchParams → Request → Option Solution)
    (req : Request) (hvalid : invalidInput req = false)
    (hnone : solve buildSearchParams req = none) :
    optimize solve req = .badRequest infeasibleMsg ∧
    statusCode (optimize solve req) = 400 ∧
    ∀ routes, optimize solve req ≠ .success routes := by
  have h1 := optimize_none solve req hvalid hnone
  refine ⟨h1, by rw [h1]; rfl, fun routes hcontra => ?_⟩
  rw [h1] at hcontra
  exact Resp.noConfusion hcontra

/-- Witness for C5 at the Scenario B request with a solver that finds
nothing. -/
theorem C5_infeasible_rejection_witness :
    invalidInput scenarioB = false ∧
    (optimize (fun _ _ => none) scenarioB = .badRequest infeasibleMsg ∧
     statusCode (optimize (fun _ _ => none) scenarioB) = 400 ∧
     ∀ routes, optimize (fun _ _ => none) scenarioB ≠ .success routes) :=
  ⟨by decide, C5_infeasible_rejection (fun _ _ => none) scenarioB (by decide) rfl⟩

/-- C6: a record is in the extracted output exactly when its vehicle's
walked route has more than two entries (so a route of length exactly two,
start immediately followed by end, is omitted, src/main.py line 138), and
every retained record carries the originating driver's id, name and phone
and that vehicle's stop list (lines 139-144). -/
theorem C6_route_extraction (drivers : List Driver) (sol : Solution) (r : RouteOut) :
    r ∈ extractRoutes drivers sol ↔
      ∃ v, v < drivers.length ∧ 2 < (stops (routeD sol v)).length ∧
        r = mkRouteOut drivers sol v := by
  simp only [extractRoutes, List.mem_filterMap, List.mem_range]
  constructor
  · rintro ⟨v, hv, hr⟩
    by_cases h : 2 < (stops (routeD sol v)).length
    · rw [if_pos h] at hr
      exact ⟨v, hv, h, (Option.some.inj hr).symm⟩
    · rw [if_neg h] at hr
      exact Option.noConfusion hr
  · rintro ⟨v, hv, h, rfl⟩
    exact ⟨v, hv, by rw [if_pos h]⟩

/-- C9 counterexample: handing the process a non-default configuration
(here a 10 second budget and a 60 second tolerance) changes nothing about
the handler's behaviour, and the parameters actually used are the
hard-coded 30 seconds (src/main.py line 106) and ±900 seconds
(lines 61-62). -/
theorem C9_counterexample :
    appOptimize [("SEARCH_TIME_LIMIT", "10"), ("PICKUP_TOLERANCE", "60")]
        (fun _ _ => some solA) scenarioA
      = appOptimize [] (fun _ _ => some solA) scenarioA ∧
    buildSearchParams.time_limit_seconds = 30 ∧
    pickupWindow 1000 = (100, 1900) := by decide

/-- C9 amended: the search time budget and the pickup tolerance are the
hard-coded literals 30 seconds and ±900 seconds; the handler's response is
a function of the request and the solver alone, so no externally exposed
configuration can make the solver use any other value. -/
theorem C9_hardcoded_parameters :
    (∀ env env2 solve req, appOptimize env solve req = appOptimize env2 solve req) ∧
    buildSearchParams.time_limit_seconds = 30 ∧
    (∀ t : Int, pickupWindow t = (t - 900, t + 900)) := by
  refine ⟨fun env env2 solve req => rfl, rfl, fun t => ?_⟩
  norm_num [pickupWindow]

/-- C10: when a node occurs in several jobs, the demand `demand_callback`
applies at that node is decided solely by the first job in input-list
order that mentions it: +passengers when it matches that job's pickup
(checked first), -passengers when it matches its dropoff, and the value is
the same whatever jobs follow (src/main.py lines 77-84). -/
theorem C10_first_match_demand (pre rest : List Job) (j : Job) (node : Nat)
    (hpre : ∀ k ∈ pre, k.pickup_node ≠ node ∧ k.dropoff_node ≠ node)
    (hmatch : j.pickup_node = node ∨ j.dropoff_node = node) :
    demand_callback (pre ++ j :: rest) node =
      if node = j.pickup_node then j.passengers else -j.passengers := by
  induction pre with
  | nil =>
    simp only [List.nil_append, demand_callback]
    rcases hmatch with h | h
    · rw [if_pos h.symm, if_pos h.symm]
    · by_cases hp : node = j.pickup_node
      · rw [if_pos hp, if_pos hp]
      · rw [if_neg hp, if_neg hp, if_pos h.symm]
  | cons k pre ih =>
    have hk := hpre k (List.mem_cons_self k pre)
    simp only [List.cons_append, demand_callback]
    rw [if_neg (fun h => hk.1 h.symm), if_neg (fun h => hk.2 h.symm)]
    exact ih (fun k' hk' => hpre k' (List.mem_cons_of_mem k hk'))

/-- Witness for C10: at shared node 5 the demand is jobW1's +2, not the
sum 5 and not jobW2's 3. -/
theorem C10_first_match_demand_witness :
    demand_callback [jobW1, jobW2] 5 = 2 := by
  have h := C10_first_match_demand [] [jobW2] jobW1 5 (by simp) (Or.inl rfl)
  simpa using h

/-- Lists of length four have exactly four elements. -/
theorem length_four_cases (l : List Nat) (h : l.length = 4) :
    ∃ a b c d, l = [a, b, c, d] := by
  rcases l with _ | ⟨a, _ | ⟨b, _ | ⟨c, _ | ⟨d, _ | ⟨e, t⟩⟩⟩⟩⟩
  · simp only [List.length_nil] at h
    omega
  · simp only [List.length_cons, List.length_nil] at h
    omega
  · simp only [List.length_cons, List.length_nil] at h
    omega
  · simp only [List.length_cons, List.length_nil] at h
    omega
  · exact ⟨a, b, c, d, rfl⟩
  · simp only [List.length_cons] at h
    omega

/-- C8: on the Scenario A request, any accepted, complete solution with
accumulated time values makes the handler return exactly one route,
start, A, B, end, with arrival 100 at the pickup node (inside
[1000 - 900, 1000 + 900]) and arrival 600 = 100 + 500 at the dropoff. -/
theorem C8_scenario_a (solve : SearchParams → Request → Option Solution)
    (sol : Solution)
    (hs : solve buildSearchParams scenarioA = some sol)
    (hacc : accepted scenarioA sol = true)
    (hcomp : complete scenarioA sol = true)
    (hmin : accumulatedSol scenarioA sol = true) :
    ∃ tA tB : Int,
      optimize solve scenarioA =
        .success [⟨driverA.id, driverA.name, driverA.phone,
          [⟨0, 0⟩, ⟨1, tA⟩, ⟨2, tB⟩, ⟨3, tB⟩]⟩] ∧
      1000 - 900 ≤ tA ∧ tA ≤ 1000 + 900 ∧ tB = tA + 500 := by
  have hparts := accepted_parts scenarioA sol hacc
  have hlen : sol.length = 1 := by simpa [scenarioA] using hparts.1
  obtain ⟨r, rfl⟩ : ∃ r, sol = [r] := by
    rcases sol with _ | ⟨r, _ | ⟨r2, rest⟩⟩
    · simp at hlen
    · exact ⟨r, rfl⟩
    · simp at hlen
  obtain ⟨-, hchecks, hjobs⟩ := hparts
  have h0lt : 0 < scenarioA.drivers.length := by decide
  have hroute : routeD [r] 0 = r := rfl
  -- the path is a permutation of the four nodes
  have hperm : r.path.Perm [0, 1, 2, 3] := by
    simp only [complete, decide_eq_true_eq] at hcomp
    have hsort := List.perm_insertionSort (· ≤ ·) (allVisits [r])
    rw [hcomp] at hsort
    have hav : allVisits [r] = r.path := by simp [allVisits]
    rw [hav] at hsort
    exact hsort.symm
  -- endpoint constraints of the time dimension
  obtain ⟨-, -, hhead, hlast, -, -, -, -⟩ :=
    timeCheck_parts _ _ _ (hchecks 0 h0lt).1
  rw [hroute] at hhead hlast
  -- the job's pickup sits before its dropoff
  obtain ⟨-, -, hserved⟩ :=
    jobCheck_parts [r] jobA (hjobs jobA (by simp [scenarioA]))
  obtain ⟨r2, hr2, p, q, hp, hq, hpq, -⟩ := jobServed_parts [r] jobA hserved
  rw [List.mem_singleton] at hr2
  rw [hr2] at hp hq
  -- destructure the length-four path
  have hlen4 : r.path.length = 4 := by simpa using hperm.length_eq
  obtain ⟨a, b, c, d, hpath⟩ := length_four_cases r.path hlen4
  rw [hpath] at hhead
  simp only [List.head?_cons, Option.some.injEq] at hhead
  have hstart : a = 0 := by simpa [scenarioA, driverD, driverA] using hhead
  subst hstart
  rw [hpath] at hlast
  have hlast4 : ([0, b, c, d] : List Nat).getLast? = some d := rfl
  rw [hlast4] at hlast
  simp only [Option.some.injEq] at hlast
  have hend3 : d = 3 := by simpa [scenarioA, driverD, driverA] using hlast
  subst hend3
  -- nodes 1 and 2 occupy the two interior positions
  have h1mem : (1 : Nat) ∈ r.path := hperm.mem_iff.mpr (by simp)
  have h2mem : (2 : Nat) ∈ r.path := hperm.mem_iff.mpr (by simp)
  rw [hpath] at h1mem h2mem
  simp only [List.mem_cons, List.not_mem_nil, or_false] at h1mem h2mem
  have h1mem2 : b = 1 ∨ c = 1 := by omega
  have h2mem2 : b = 2 ∨ c = 2 := by omega
  have hgood : r.path = [0, 1, 2, 3] := by
    rcases h1mem2 with hb1 | hc1 <;> rcases h2mem2 with hb2 | hc2
    · omega
    · rw [hpath, hb1, hc2]
    · -- path [0, 2, 1, 3] would place the dropoff before the pickup
      exfalso
      rw [hpath, hb2, hc1] at hp hq
      simp only [posOf, jobA] at hp hq
      norm_num at hp hq
      omega
    · omega
  -- accumulated times are forced
  simp only [accumulatedSol, Bool.and_eq_true, decide_eq_true_eq, List.all_eq_true,
    List.mem_range] at hmin
  have htimes := hmin.2 0 h0lt
  rw [hroute, hgood] at htimes
  have hcompute : accTimes scenarioA.time_matrix scenarioA.jobs
      (driverD scenarioA.drivers 0).shift_start [0, 1, 2, 3] = [0, 100, 600, 600] := by
    decide
  rw [hcompute] at htimes
  -- the solution is pinned and the handler output computes
  have hrr : r = RouteAssign.mk [0, 1, 2, 3] [0, 100, 600, 600] := by
    cases r
    rw [RouteAssign.mk.injEq]
    exact ⟨hgood, htimes⟩
  rw [hrr] at hs
  have hout := optimize_some solve scenarioA
    [RouteAssign.mk [0, 1, 2, 3] [0, 100, 600, 600]] (by decide) hs
  refine ⟨100, 600, ?_, by norm_num, by norm_num, by norm_num⟩
  rw [hout]
  decide

/-- Witness for C8: a solver that returns the Scenario A solution. -/
theorem C8_scenario_a_witness :
    (fun (_ : SearchParams) (_ : Request) => some solA) buildSearchParams scenarioA
        = some solA ∧
    accepted scenarioA solA = true ∧
    complete scenarioA solA = true ∧
    accumulatedSol scenarioA solA = true ∧
    (∃ tA tB : Int,
      optimize (fun _ _ => some solA) scenarioA =
        .success [⟨driverA.id, driverA.name, driverA.phone,
          [⟨0, 0⟩, ⟨1, tA⟩, ⟨2, tB⟩, ⟨3, tB⟩]⟩] ∧
      1000 - 900 ≤ tA ∧ tA ≤ 1000 + 900 ∧ tB = tA + 500) :=
  ⟨rfl, by decide, by decide, by decide,
    C8_scenario_a (fun _ _ => some solA) solA rfl (by decide) (by decide) (by decide)⟩

end Vrp
